import Mathlib

/-!
Shallow embedding of the slot-filling appointment chatbot
(handlers/chat.js, utils/appointment.js, utils/inMemoryStore.js and the
sequential seven-field handler variant), together with theorems checking
the natural-language specification against the code.

Machine conventions: JS string field values are modelled as
`Option String` (`none` = property absent / `undefined`); JS falsiness of
such a value is `none` or `some ""`.  Timestamps (`Date.now()`) are `Int`
milliseconds.  External effects (the LLM completion call, `JSON.parse`,
the MongoDB insert) are passed in as explicit outcome parameters so the
handlers become pure functions of their inputs.
-/

/-- A single-quote character, used to build JS string literals faithfully. -/
def squote : Char := Char.ofNat 39

/-- JS object with string-valued properties, as a total lookup function. -/
def FieldMap : Type := String → Option String

/-- The empty object. -/
def emptyFields : FieldMap := fun _ => none

/-- JS truthiness of a string-valued property: present and not the empty string. -/
def truthy : Option String → Bool
  | none => false
  | some v => v ≠ ""

/-- Object spread merge as in the source, with the second object winning per key. -/
def spreadMerge (c e : FieldMap) : FieldMap :=
  fun k => match e k with
    | some v => some v
    | none => c k

/-- Lowercased character list of a string, as toLowerCase produces it. -/
def lowerChars (s : String) : List Char := s.toList.map Char.toLower

/-- The trim method: strips whitespace from both ends. -/
def jsTrim (s : String) : String :=
  String.mk (((s.toList.dropWhile Char.isWhitespace).reverse.dropWhile
    Char.isWhitespace).reverse)

namespace Appointment

/-! Embedding of src/utils/appointment.js (source file part_002). -/

/-- The six slots the rule-based extractor and the validator operate on. -/
structure AppointmentData where
  name : Option String
  email : Option String
  phone : Option String
  service : Option String
  preferredDate : Option String
  preferredTime : Option String
  deriving Repr, DecidableEq

/-- Character class of the regex fragment matching a non-whitespace, non-at char. -/
def isEmailChar (c : Char) : Bool := !c.isWhitespace && c != '@'

/-- Does the list contain a dot that is neither its first nor its last element? -/
def hasInnerDot (l : List Char) : Bool :=
  (List.range l.length).any fun i =>
    decide (0 < i) && decide (i + 1 < l.length) && decide (l.get? i = some '.')

/-- Embeds isValidEmail: the anchored regex of one local part, an at sign and a
domain that contains an interior dot, with no whitespace or second at sign. -/
def isValidEmail (s : String) : Bool :=
  let l := s.toList
  let loc := l.takeWhile (fun c => c != '@')
  let rest := l.dropWhile (fun c => c != '@')
  match rest with
  | [] => false
  | _ :: dom =>
    !loc.isEmpty && loc.all isEmailChar && !dom.isEmpty && dom.all isEmailChar
      && hasInnerDot dom

/-- Result shape of validateAppointmentData. -/
structure ValidationResult where
  valid : Bool
  errors : List String
  deriving Repr, DecidableEq

/-- JS falsy-or-short-name test used by the validator. -/
def nameBad (v : Option String) : Bool :=
  match v with
  | none => true
  | some n => n = "" || (jsTrim n).length < 2

/-- JS falsy-or-invalid-email test used by the validator. -/
def emailBad (v : Option String) : Bool :=
  match v with
  | none => true
  | some e => e = "" || !isValidEmail e

/-- JS falsy-or-short-phone test used by the validator. -/
def phoneBad (v : Option String) : Bool :=
  match v with
  | none => true
  | some p => p = "" || (jsTrim p).length < 10

/-- JS falsy-or-blank-service test used by the validator. -/
def serviceBad (v : Option String) : Bool :=
  match v with
  | none => true
  | some s => s = "" || (jsTrim s).length = 0

/-- JS falsiness test for the two presence-only fields. -/
def fieldMissing (v : Option String) : Bool :=
  match v with
  | none => true
  | some s => s = ""

/-- Embeds validateAppointmentData: pushes one message per violated rule, in
source order, and is valid exactly when no rule is violated. -/
def validateAppointmentData (d : AppointmentData) : ValidationResult :=
  let errors :=
    (if nameBad d.name then ["Name must be at least 2 characters long"] else [])
    ++ (if emailBad d.email then ["Valid email is required"] else [])
    ++ (if phoneBad d.phone then ["Valid phone number is required"] else [])
    ++ (if serviceBad d.service then ["Service type is required"] else [])
    ++ (if fieldMissing d.preferredDate then ["Preferred date is required"] else [])
    ++ (if fieldMissing d.preferredTime then ["Preferred time is required"] else [])
  { valid := errors.isEmpty, errors := errors }

/-- Number of rules the validator finds violated on the given data. -/
def violationCount (d : AppointmentData) : Nat :=
  (if nameBad d.name then 1 else 0)
  + (if emailBad d.email then 1 else 0)
  + (if phoneBad d.phone then 1 else 0)
  + (if serviceBad d.service then 1 else 0)
  + (if fieldMissing d.preferredDate then 1 else 0)
  + (if fieldMissing d.preferredTime then 1 else 0)

/-! Embedding of extractAppointmentInfo.  Each regex of the source becomes a
left-to-right scanner over the character list that tries a match at every
position, mirroring the engine's leftmost-match rule and the (limited)
backtracking the specific patterns can exhibit. -/

/-- Case-insensitive match of a literal at the head of the input; returns the rest. -/
def matchLitCI : List Char → List Char → Option (List Char)
  | [], rest => some rest
  | _ :: _, [] => none
  | p :: ps, c :: cs => if p.toLower = c.toLower then matchLitCI ps cs else none

/-- Character class of the name capture group: ASCII letters and whitespace. -/
def isNameChar (c : Char) : Bool := c.isAlpha || c.isWhitespace

/-- After one of the introducer phrases: one-or-more whitespace then a greedy
letters-and-whitespace capture, with the backtracking the two adjacent
whitespace-compatible classes allow. -/
def nameCapture (l : List Char) : Option (List Char) :=
  let run := l.takeWhile isNameChar
  let w := (run.takeWhile Char.isWhitespace).length
  if w = 0 then none
  else if w < run.length then some (run.drop w)
  else if 2 ≤ w then some (run.drop (w - 1))
  else none

/-- The introducer phrases of the name regex, in source alternative order. -/
def nameLiterals : List (List Char) :=
  [String.toList "my name is",
   ['i', squote, 'm'],
   String.toList "i am",
   String.toList "call me"]

/-- Try the name regex with its match anchored at the current position. -/
def tryNameAt (l : List Char) : Option (List Char) :=
  nameLiterals.firstM fun lit => matchLitCI lit l >>= nameCapture

/-- Scan for the leftmost match of the name regex. -/
def findName : List Char → Option (List Char)
  | [] => none
  | c :: cs =>
    match tryNameAt (c :: cs) with
    | some cap => some cap
    | none => findName cs

/-- Character class of the email local part. -/
def isLocalChar (c : Char) : Bool :=
  c.isAlpha || c.isDigit || c = '.' || c = '_' || c = '%' || c = '+' || c = '-'

/-- Character class of the email domain part. -/
def isDomainChar (c : Char) : Bool := c.isAlpha || c.isDigit || c = '.' || c = '-'

/-- Greedy domain backtracking: the largest split of the domain run at a dot
followed by at least two letters, capturing the maximal letter run after it. -/
def domainSplit (dom : List Char) : Option (List Char) :=
  (List.range dom.length).reverse.firstM fun j =>
    if dom.get? j = some '.' && decide (1 ≤ j) then
      let tld := (dom.drop (j + 1)).takeWhile Char.isAlpha
      if 2 ≤ tld.length then some (dom.take j ++ '.' :: tld) else none
    else none

/-- Try the email regex with its match anchored at the current position. -/
def tryEmailAt (l : List Char) : Option (List Char) :=
  let loc := l.takeWhile isLocalChar
  if loc.isEmpty then none
  else
    match l.drop loc.length with
    | '@' :: rest =>
      let dom := rest.takeWhile isDomainChar
      (domainSplit dom).map fun tail => loc ++ '@' :: tail
    | _ => none

/-- Scan for the leftmost match of the email regex. -/
def findEmail : List Char → Option (List Char)
  | [] => none
  | c :: cs =>
    match tryEmailAt (c :: cs) with
    | some cap => some cap
    | none => findEmail cs

/-- One optional phone separator character. -/
def isSepChar (c : Char) : Bool := c = '-' || c = '.' || c.isWhitespace

/-- Exactly n digits from the front of the input; returns the digits and the rest. -/
def takeDigits : Nat → List Char → Option (List Char × List Char)
  | 0, l => some ([], l)
  | _ + 1, [] => none
  | n + 1, c :: cs =>
    if c.isDigit then (takeDigits n cs).map fun (d, r) => (c :: d, r) else none

/-- Consume one separator if present (the separator alternative can never fail
into the bare alternative, since a separator is not a digit). -/
def optSep (l : List Char) : List Char × List Char :=
  match l with
  | c :: cs => if isSepChar c then ([c], cs) else ([], l)
  | [] => ([], l)

/-- Try the phone regex with its match anchored at the current position. -/
def tryPhoneAt (l : List Char) : Option (List Char) := do
  let (d1, r1) ← takeDigits 3 l
  let (s1, r2) := optSep r1
  let (d2, r3) ← takeDigits 3 r2
  let (s2, r4) := optSep r3
  let (d3, _) ← takeDigits 4 r4
  pure (d1 ++ s1 ++ d2 ++ s2 ++ d3)

/-- Scan for the leftmost match of the phone regex. -/
def findPhone : List Char → Option (List Char)
  | [] => none
  | c :: cs =>
    match tryPhoneAt (c :: cs) with
    | some cap => some cap
    | none => findPhone cs

/-- The service keyword list, in source order. -/
def serviceKeywords : List String :=
  ["consultation", "checkup", "examination", "treatment", "therapy", "surgery"]

/-- Does the pattern occur at the head of the input? -/
def headMatch : List Char → List Char → Bool
  | _, [] => true
  | [], _ :: _ => false
  | h :: t, p :: ps => h = p && headMatch t ps

/-- Substring containment on character lists. -/
def listContains (hay pat : List Char) : Bool :=
  match hay with
  | [] => pat.isEmpty
  | _ :: rest => headMatch hay pat || listContains rest pat

/-- Lowercased-message containment, as the source checks each keyword. -/
def messageIncludes (message keyword : String) : Bool :=
  listContains (lowerChars message) keyword.toList

/-- First service keyword the lowercased message contains, if any. -/
def findService (message : String) : Option String :=
  serviceKeywords.find? fun k => messageIncludes message k

/-- Word character class of the date capture. -/
def isWordChar (c : Char) : Bool := c.isAlpha || c.isDigit || c = '_'

/-- The date-introducing prepositions, in source alternative order. -/
def dateLiterals : List (List Char) :=
  [String.toList "on", String.toList "for", String.toList "at"]

/-- After the preposition: whitespace, a word, whitespace, one or two digits
and an optional ordinal suffix, the capture starting at the word. -/
def dateCapture (l : List Char) : Option (List Char) :=
  let ws1 := l.takeWhile Char.isWhitespace
  if ws1.isEmpty then none
  else
    let r1 := l.drop ws1.length
    let w := r1.takeWhile isWordChar
    if w.isEmpty then none
    else
      let r2 := r1.drop w.length
      let ws2 := r2.takeWhile Char.isWhitespace
      if ws2.isEmpty then none
      else
        let r3 := r2.drop ws2.length
        let dgs := (r3.takeWhile Char.isDigit).take 2
        if dgs.isEmpty then none
        else
          let r4 := r3.drop dgs.length
          let suffix :=
            match (["st", "nd", "rd", "th"].map String.toList).firstM
                (fun lit => (matchLitCI lit r4).map fun _ => lit) with
            | some lit => lit
            | none => []
          some (w ++ ws2 ++ dgs ++ suffix)

/-- Try the date regex with its match anchored at the current position. -/
def tryDateAt (l : List Char) : Option (List Char) :=
  dateLiterals.firstM fun lit => matchLitCI lit l >>= dateCapture

/-- Scan for the leftmost match of the date regex. -/
def findDate : List Char → Option (List Char)
  | [] => none
  | c :: cs =>
    match tryDateAt (c :: cs) with
    | some cap => some cap
    | none => findDate cs

/-- Try the time regex with its match anchored at the current position: one or
two digits (greedy, backtracking to one), a colon, exactly two digits, greedy
whitespace and an optional meridiem. -/
def tryTimeAt (l : List Char) : Option (List Char) :=
  let hourThen (h : List Char) (rest : List Char) : Option (List Char) :=
    match rest with
    | ':' :: r1 => do
      let (mins, r2) ← takeDigits 2 r1
      let ws := r2.takeWhile Char.isWhitespace
      let r3 := r2.drop ws.length
      let mer :=
        match (["am", "pm"].map String.toList).firstM
            (fun lit => (matchLitCI lit r3).map fun _ => lit) with
        | some lit => lit
        | none => []
      pure (h ++ ':' :: mins ++ ws ++ mer)
    | _ => none
  match takeDigits 2 l with
  | some (h2, r) =>
    match hourThen h2 r with
    | some cap => some cap
    | none => (takeDigits 1 l).bind fun (h1, r1) => hourThen h1 r1
  | none => (takeDigits 1 l).bind fun (h1, r1) => hourThen h1 r1

/-- Scan for the leftmost match of the time regex. -/
def findTime : List Char → Option (List Char)
  | [] => none
  | c :: cs =>
    match tryTimeAt (c :: cs) with
    | some cap => some cap
    | none => findTime cs

/-- Embeds extractAppointmentInfo: each field recognised independently from the
message alone, the phone stripped of separators and the name trimmed. -/
def extractAppointmentInfo (message : String) : AppointmentData :=
  let l := message.toList
  { name := (findName l).map fun cap => jsTrim (String.mk cap)
    email := (findEmail l).map String.mk
    phone := (findPhone l).map fun cap => String.mk (cap.filter fun c => !isSepChar c)
    service := findService message
    preferredDate := (findDate l).map String.mk
    preferredTime := (findTime l).map String.mk }

/-- Per-property object spread on the six-slot record, the second object winning. -/
def spreadField (cv ev : Option String) : Option String :=
  match ev with
  | some v => some v
  | none => cv

/-- Embeds the merge of newly extracted fields into the collected fields. -/
def mergeData (c e : AppointmentData) : AppointmentData :=
  { name := spreadField c.name e.name
    email := spreadField c.email e.email
    phone := spreadField c.phone e.phone
    service := spreadField c.service e.service
    preferredDate := spreadField c.preferredDate e.preferredDate
    preferredTime := spreadField c.preferredTime e.preferredTime }

/-- One extraction-and-merge turn over the six-slot record. -/
def extractAndMerge (c : AppointmentData) (message : String) : AppointmentData :=
  mergeData c (extractAppointmentInfo message)

end Appointment

namespace ChatTen

/-! Embedding of the first handler variant of src/handlers/chat.js: the
ten-field slot-filling engine with the GPT extraction step, the yes/no
confirmation branch, the in-memory session object and the idle sweep. -/

/-- The ten required fields, in source order. -/
def requiredFields : List String :=
  ["patientName", "dob", "email", "phone", "doctor", "service", "time",
   "status", "action", "chiefComplaint"]

/-- One session object of the sessions map. -/
structure Session where
  step : Nat
  data : FieldMap
  lastActive : Int
  started : Bool

/-- The sessions map, keyed by session id. -/
def SessionMap : Type := String → Option Session

/-- The empty sessions map. -/
def emptySessions : SessionMap := fun _ => none

/-- Point update of the sessions map; deletion stores none. -/
def setSession (m : SessionMap) (k : String) (v : Option Session) : SessionMap :=
  fun x => if x = k then v else m x

/-- The fresh session object created on first contact with a session id. -/
def freshSession (now : Int) : Session :=
  { step := 0, data := emptyFields, lastActive := now, started := false }

/-- Session lookup with creation, as the handler performs it. -/
def lookupOrCreate (m : SessionMap) (sessionId : String) (now : Int) : Session :=
  match m sessionId with
  | some s => s
  | none => freshSession now

/-- Substring test on strings, used for the unanchored confirmation regexes. -/
def containsCI (s pat : String) : Bool :=
  Appointment.listContains (lowerChars s) (lowerChars pat)

/-- The affirmative pattern test of the confirmation branch. -/
def testYes (message : String) : Bool := containsCI message "yes"

/-- The negative pattern test of the confirmation branch. -/
def testNo (message : String) : Bool := containsCI message "no"

/-- Required fields the session has not yet collected a truthy value for. -/
def missingFields (data : FieldMap) : List String :=
  requiredFields.filter fun f => !truthy (data f)

/-- The identifiers bound in the module scope of this handler file: its module
level consts and lets plus its function declarations and the CommonJS wrapper
parameters.  The confirmation re-ask line reads two further identifiers that
appear nowhere in this list. -/
def moduleScopeIds : List String :=
  ["MongoClient", "Pinecone", "OpenAI", "mongoUri", "pineconeApiKey",
   "pineconeEnv", "pineconeIndexName", "openaiApiKey", "pineconeClient",
   "pineconeIndex", "mongoClient", "openai", "sessions", "cachedDb",
   "cachedCollection", "requiredFields", "initOpenAI", "initPinecone",
   "initMongo", "handleAIConversation", "getConfirmationMessage", "handler",
   "defaultHeaders", "module", "exports", "require", "console", "setInterval",
   "Date", "JSON"]

/-- Identifier resolution against the module scope. -/
def resolveId (id : String) : Option Unit :=
  if id ∈ moduleScopeIds then some () else none

/-- Output shape of the GPT extraction step after JSON parsing. -/
structure ExtractorOutput where
  data : FieldMap
  nextPrompt : String

/-- The clarification fallback returned when the model output fails to parse. -/
def fallbackOutput : ExtractorOutput :=
  { data := emptyFields
    nextPrompt :=
      "Sorry, I didn" ++ squote.toString ++ "t understand that. Can you rephrase?" }

/-- Embeds handleAIConversation.  The completion call outcome and the JSON
parse of its content are passed in; only the parse is inside the try, so a
failed completion call is rethrown while unparseable content falls back. -/
def handleAIConversation (completion : Except String String)
    (parse : String → Option ExtractorOutput) : Except String ExtractorOutput :=
  match completion with
  | .error e => .error e
  | .ok content =>
    match parse content with
    | some parsed => .ok parsed
    | none => .ok fallbackOutput

/-- The document the yes branch builds and inserts: the collected data spread
first, then the booked status, the action tag, the creation timestamp and
the session id. -/
structure BookingDoc where
  fields : FieldMap
  createdAt : Int
  sessionId : String

/-- The spread-with-overrides construction of the booking document fields. -/
def bookedFields (data : FieldMap) : FieldMap :=
  fun k =>
    if k = "status" then some "booked"
    else if k = "action" then some "appointment"
    else data k

/-- The HTTP result of one handler invocation, with only the body properties
each return site sets. -/
structure TurnResult where
  statusCode : Nat
  response : Option String
  appointment : Option BookingDoc
  completed : Option Bool
  step : Option Nat
  totalSteps : Option Nat
  error : Option String

/-- The 400 response of the missing-parameter guard. -/
def badRequest : TurnResult :=
  { statusCode := 400, response := none, appointment := none, completed := none,
    step := none, totalSteps := none,
    error := some "sessionId and message are required." }

/-- The 500 response of the catch-all handler. -/
def serverError (message : String) : TurnResult :=
  { statusCode := 500, response := none, appointment := none, completed := none,
    step := none, totalSteps := none, error := some message }

/-- A 200 response carrying the given body properties. -/
def okResponse (response : Option String) (appointment : Option BookingDoc)
    (completed : Option Bool) (step totalSteps : Option Nat) : TurnResult :=
  { statusCode := 200, response := response, appointment := appointment,
    completed := completed, step := step, totalSteps := totalSteps, error := none }

/-- Embeds the handler.  External effects appear as parameters: now is the
clock reading, completion and parse the extraction step's collaborators and
insert the MongoDB insert outcome.  Returns the HTTP result and the sessions
map after the turn. -/
def handler (sessions : SessionMap) (sessionId message : String) (now : Int)
    (completion : Except String String) (parse : String → Option ExtractorOutput)
    (insert : Except String Unit) : TurnResult × SessionMap :=
  if sessionId = "" ∨ message = "" then
    (badRequest, sessions)
  else
    let session0 := lookupOrCreate sessions sessionId now
    let session := { session0 with lastActive := now }
    let sessions1 := setSession sessions sessionId (some session)
    if (missingFields session.data).isEmpty then
      if testYes message then
        match insert with
        | .ok _ =>
          let doc : BookingDoc :=
            { fields := bookedFields session.data, createdAt := now,
              sessionId := sessionId }
          (okResponse (some "Your appointment is confirmed! Thank you.")
              (some doc) (some true) none none,
            setSession sessions1 sessionId none)
        | .error e => (serverError e, sessions1)
      else if testNo message then
        (okResponse
            (some "Appointment cancelled. If you want to start over, just say hi!")
            none (some false) none none,
          setSession sessions1 sessionId none)
      else
        match resolveId "PROMPTS", resolveId "STEPS" with
        | some _, some _ =>
          (okResponse (some "") none none (some session.step) (some 0), sessions1)
        | _, _ =>
          (serverError "PROMPTS is not defined", sessions1)
    else
      match handleAIConversation completion parse with
      | .error e => (serverError e, sessions1)
      | .ok out =>
        let newData := spreadMerge session.data out.data
        let session' := { session with data := newData }
        let sessions2 := setSession sessions1 sessionId (some session')
        let stillMissing := missingFields newData
        (okResponse (some out.nextPrompt) none none
            (some (requiredFields.length - stillMissing.length))
            (some requiredFields.length),
          sessions2)

/-- Embeds the idle sweep body: one pass at clock reading now deletes exactly
the sessions whose last activity lies strictly more than the idle threshold
in the past. -/
def sweep (now : Int) (m : SessionMap) : SessionMap :=
  fun k =>
    match m k with
    | some s => if 15 * 60 * 1000 < now - s.lastActive then none else some s
    | none => none

/-- The fixed period of the sweep timer, in milliseconds. -/
def sweepPeriodMs : Nat := 60 * 1000

/-- The idle threshold of the sweep, in milliseconds. -/
def idleThresholdMs : Int := 15 * 60 * 1000

end ChatTen

namespace ChatSeven

/-! Embedding of the sequential seven-field handler variant (source file
part_001): a step cursor walks the field list, each message is stored
verbatim as the value of the previously prompted field, and the record is
inserted once the cursor passes the end of the list. -/

/-- The seven field keys, in source order. -/
def appointmentFieldKeys : List String :=
  ["name", "email", "phoneNumber", "doctor", "service", "date", "time"]

/-- One session object of this variant: a cursor and the collected data. -/
structure Session where
  step : Nat
  data : FieldMap

/-- The sessions map of this variant. -/
def SessionMap : Type := String → Option Session

/-- The empty sessions map. -/
def emptySessions : SessionMap := fun _ => none

/-- Point update of the sessions map; deletion stores none. -/
def setSession (m : SessionMap) (k : String) (v : Option Session) : SessionMap :=
  fun x => if x = k then v else m x

/-- The record this variant inserts: the collected data spread plus the
creation timestamp and the session id. -/
structure AppointmentRecord where
  fields : FieldMap
  createdAt : Int
  sessionId : String

/-- The HTTP result of one invocation of this variant. -/
structure TurnResult where
  statusCode : Nat
  response : Option String
  appointment : Option AppointmentRecord
  completed : Option Bool
  step : Option Nat
  totalSteps : Option Nat
  error : Option String

/-- The 400 response of the missing-parameter guard. -/
def badRequest : TurnResult :=
  { statusCode := 400, response := none, appointment := none, completed := none,
    step := none, totalSteps := none,
    error := some "sessionId and message are required." }

/-- The 500 response of the catch-all handler, whose body names the thrown
error alongside the fixed internal-server-error text. -/
def serverError (thrown : String) : TurnResult :=
  { statusCode := 500, response := none, appointment := none, completed := none,
    step := none, totalSteps := none, error := some thrown }

/-- Embeds the handler of this variant.  The conversational reply and the
insert outcome are passed in as collaborator outcomes. -/
def handler (sessions : SessionMap) (sessionId message : String) (now : Int)
    (aiResponse : Except String String) (insert : Except String Unit) :
    TurnResult × SessionMap :=
  if sessionId = "" ∨ message = "" then
    (badRequest, sessions)
  else
    let session0 :=
      match sessions sessionId with
      | some s => s
      | none => { step := 0, data := emptyFields }
    let session :=
      if 0 < session0.step ∧ session0.step ≤ appointmentFieldKeys.length then
        let prevField := appointmentFieldKeys.getD (session0.step - 1) ""
        { session0 with
            data := fun k => if k = prevField then some message else session0.data k }
      else session0
    let sessions1 := setSession sessions sessionId (some session)
    if appointmentFieldKeys.length ≤ session.step then
      match insert with
      | .error e => (serverError e, sessions1)
      | .ok _ =>
        let record : AppointmentRecord :=
          { fields := session.data, createdAt := now, sessionId := sessionId }
        let sessions2 := setSession sessions1 sessionId none
        match aiResponse with
        | .error e => (serverError e, sessions2)
        | .ok reply =>
          (({ statusCode := 200, response := some reply,
              appointment := some record, completed := some true, step := none,
              totalSteps := none, error := none } : TurnResult), sessions2)
    else
      match aiResponse with
      | .error e => (serverError e, sessions1)
      | .ok reply =>
        let session' := { session with step := session.step + 1 }
        let sessions2 := setSession sessions1 sessionId (some session')
        (({ statusCode := 200, response := some reply, appointment := none,
            completed := none, step := some session'.step,
            totalSteps := some appointmentFieldKeys.length, error := none } :
            TurnResult), sessions2)

end ChatSeven

namespace ChatGate

/-! Embedding of validateInput and the transport validation stage of the
second handler variant of src/handlers/chat.js. -/

/-- Result shape of validateInput. -/
structure Validation where
  valid : Bool
  error : Option String
  deriving Repr, DecidableEq

/-- JS falsiness of a possibly-absent string parameter. -/
def falsyParam : Option String → Bool
  | none => true
  | some s => s = ""

/-- Embeds validateInput: the falsiness guards first, then the two length
caps, each error message opening with the offending field's name. -/
def validateInput (sessionId message : Option String) : Validation :=
  if falsyParam sessionId then
    { valid := false, error := some "sessionId must be a non-empty string" }
  else if falsyParam message then
    { valid := false, error := some "message must be a non-empty string" }
  else if 100 < (sessionId.getD "").length then
    { valid := false, error := some "sessionId too long (max 100 characters)" }
  else if 4000 < (message.getD "").length then
    { valid := false, error := some "message too long (max 4000 characters)" }
  else
    { valid := true, error := none }

/-- A rejection response of the validation stage. -/
structure Rejection where
  statusCode : Nat
  error : Option String
  deriving Repr, DecidableEq

/-- Embeds the validation stage of the handler: an invalid input is answered
with a 400 carrying the validation error and a valid one proceeds. -/
def validationGate (sessionId message : Option String) : Option Rejection :=
  let v := validateInput sessionId message
  if v.valid then none else some { statusCode := 400, error := v.error }

end ChatGate

namespace MemStore

/-! Embedding of src/utils/inMemoryStore.js. -/

/-- A stored message object. -/
def Msg : Type := FieldMap

/-- The backing map of the store. -/
def MsgStore : Type := String → Option (List Msg)

/-- The empty store. -/
def emptyStore : MsgStore := fun _ => none

/-- Point update of the store. -/
def setStore (m : MsgStore) (k : String) (v : List Msg) : MsgStore :=
  fun x => if x = k then some v else m x

/-- The system message the store seeds a fresh history with. -/
def systemMsg (systemPrompt : String) : Msg :=
  fun k =>
    if k = "role" then some "system"
    else if k = "content" then some systemPrompt
    else none

/-- Embeds the exported getMessages: absent history with no system prompt
yields undefined, otherwise the history is created on demand and returned. -/
def getMessages (store : MsgStore) (sessionId : String)
    (systemPrompt : Option String) : Option (List Msg) × MsgStore :=
  match store sessionId with
  | some history => (some history, store)
  | none =>
    match systemPrompt with
    | none => (none, store)
    | some sp =>
      let seeded := [systemMsg sp]
      (some seeded, setStore store sessionId seeded)

/-- The identifiers bound in the module scope of inMemoryStore.js: its single
module-level const and the CommonJS wrapper parameters.  Both exported
functions exist only as properties of the exports object, not as bindings. -/
def moduleScopeIds : List String :=
  ["store", "module", "exports", "require"]

/-- Identifier resolution against the module scope. -/
def resolveId (id : String) : Option Unit :=
  if id ∈ moduleScopeIds then some () else none

/-- A thrown JS error. -/
inductive JsError where
  | referenceError (id : String)
  | typeError (msg : String)
  deriving Repr, DecidableEq

/-- Embeds the exported appendMessage, whose body calls getMessages by its
bare name.  The identifier must resolve in the module scope before the call
can happen; the push path is reachable only if that resolution succeeds. -/
def appendMessage (store : MsgStore) (sessionId : String) (msg : Msg) :
    Except JsError MsgStore :=
  match resolveId "getMessages" with
  | none => .error (.referenceError "getMessages")
  | some _ =>
    match (getMessages store sessionId none).1 with
    | some history => .ok (setStore store sessionId (history ++ [msg]))
    | none => .error (.typeError "Cannot read properties of undefined")

end MemStore

/-! Concrete fixtures used by the witness and counterexample theorems. -/

/-- A fully collected ten-field data object whose status slot holds a value
other than booked. -/
def fullData : FieldMap := fun k =>
  if k = "patientName" then some "John Smith"
  else if k = "dob" then some "1990-01-01"
  else if k = "email" then some "john@example.com"
  else if k = "phone" then some "5551234567"
  else if k = "doctor" then some "Dr. Alice Smith"
  else if k = "service" then some "checkup"
  else if k = "time" then some "3:00 pm"
  else if k = "status" then some "pending"
  else if k = "action" then some "book"
  else if k = "chiefComplaint" then some "back pain"
  else none

/-- A sessions map holding one fully collected session under key s1. -/
def fullSessions : ChatTen.SessionMap :=
  ChatTen.setSession ChatTen.emptySessions "s1"
    (some { step := 0, data := fullData, lastActive := 0, started := false })

/-- A parse outcome that always fails, standing for unparseable model output. -/
def parseNone : String → Option ChatTen.ExtractorOutput := fun _ => none

/-- A session id of one hundred and one characters. -/
def longSid : String := String.mk (List.replicate 101 'a')

/-- A sessions map holding one session with nothing collected yet under key s2. -/
def partialSessions : ChatTen.SessionMap :=
  ChatTen.setSession ChatTen.emptySessions "s2"
    (some { step := 0, data := emptyFields, lastActive := 0, started := false })

/-- The two-field extraction outcome parseTwoFields yields on every content. -/
def twoFieldsOut : ChatTen.ExtractorOutput :=
  { data := fun k =>
      if k = "patientName" then some "Jane Doe"
      else if k = "email" then some "jane@example.com"
      else none,
    nextPrompt := "What is your phone number?" }

/-- A parse outcome standing for model output carrying two extracted fields. -/
def parseTwoFields : String → Option ChatTen.ExtractorOutput := fun _ =>
  some twoFieldsOut

/-! Theorems checking the specification claims against the embedded code. -/

/-- Idempotence of the per-property spread for a fixed second object. -/
theorem spreadField_idem (cv ev : Option String) :
    Appointment.spreadField (Appointment.spreadField cv ev) ev =
      Appointment.spreadField cv ev := by
  cases ev <;> rfl

/-- C5: the validate operation accumulates every violated rule's message
instead of short-circuiting: for all inputs the number of returned error
strings equals the number of violated rules, and for the input with name
"A", email "bad" and phone "123" it returns valid = false with all of the
name, email and phone messages present, hence at least three errors. -/
theorem C5_validate_accumulates :
    (∀ d : Appointment.AppointmentData,
      (Appointment.validateAppointmentData d).errors.length =
        Appointment.violationCount d) ∧
    ((Appointment.validateAppointmentData
        ⟨some "A", some "bad", some "123", none, none, none⟩).valid = false ∧
      "Name must be at least 2 characters long" ∈
        (Appointment.validateAppointmentData
          ⟨some "A", some "bad", some "123", none, none, none⟩).errors ∧
      "Valid email is required" ∈
        (Appointment.validateAppointmentData
          ⟨some "A", some "bad", some "123", none, none, none⟩).errors ∧
      "Valid phone number is required" ∈
        (Appointment.validateAppointmentData
          ⟨some "A", some "bad", some "123", none, none, none⟩).errors ∧
      3 ≤ (Appointment.validateAppointmentData
          ⟨some "A", some "bad", some "123", none, none, none⟩).errors.length) := by
  constructor
  · intro d
    simp only [Appointment.validateAppointmentData, Appointment.violationCount]
    split <;> split <;> split <;> split <;> split <;> split <;> simp
  · refine ⟨by decide, by decide, by decide, by decide, by decide⟩

/-- C9: one extraction-and-merge turn is idempotent for an unchanged message:
applying it twice with the same message leaves the collected record exactly
as after the first application, since the rule-based extractor is a function
of the message alone and the spread overwrite of identical values is a no-op. -/
theorem C9_extract_merge_idempotent :
    ∀ (c : Appointment.AppointmentData) (m : String),
      Appointment.extractAndMerge (Appointment.extractAndMerge c m) m =
        Appointment.extractAndMerge c m := by
  intro c m
  unfold Appointment.extractAndMerge
  generalize Appointment.extractAppointmentInfo m = e
  obtain ⟨n, em, p, s, pd, pt⟩ := e
  simp only [Appointment.mergeData, spreadField_idem]

/-- C10: the in-memory store's appendMessage always throws a ReferenceError,
because it calls getMessages by its bare name and that identifier is bound
nowhere in the module scope; it therefore never appends to any history. -/
theorem C10_appendMessage_always_reference_error :
    ∀ (store : MemStore.MsgStore) (sessionId : String) (msg : MemStore.Msg),
      MemStore.appendMessage store sessionId msg =
        .error (.referenceError "getMessages") := by
  intro store sessionId msg
  rfl

/-- C7: the idle sweep runs on a fixed sixty-second period, a sweep pass at
clock reading now keeps exactly the sessions whose last activity is at most
fifteen minutes old and deletes every strictly older one, and after such a
deletion the handler's session lookup creates a fresh session whose collected
mapping is empty. -/
theorem C7_idle_sweep :
    ChatTen.sweepPeriodMs = 60 * 1000 ∧
    ChatTen.idleThresholdMs = 15 * 60 * 1000 ∧
    (∀ (now : Int) (m : ChatTen.SessionMap) (k : String) (s : ChatTen.Session),
      ChatTen.sweep now m k = some s ↔
        m k = some s ∧ now - s.lastActive ≤ ChatTen.idleThresholdMs) ∧
    (∀ (now : Int) (m : ChatTen.SessionMap) (k : String) (s : ChatTen.Session),
      m k = some s → ChatTen.idleThresholdMs < now - s.lastActive →
        ChatTen.sweep now m k = none) ∧
    (∀ (now now2 : Int) (m : ChatTen.SessionMap) (k : String),
      ChatTen.sweep now m k = none →
        ChatTen.lookupOrCreate (ChatTen.sweep now m) k now2 =
          ChatTen.freshSession now2 ∧
        (ChatTen.freshSession now2).data = emptyFields) := by
  refine ⟨rfl, rfl, ?_, ?_, ?_⟩
  · intro now m k s
    unfold ChatTen.sweep
    cases h : m k with
    | none => simp [h]
    | some t =>
      simp only [h, ChatTen.idleThresholdMs]
      by_cases hc : (15 : Int) * 60 * 1000 < now - t.lastActive
      · rw [if_pos hc]
        constructor
        · intro hfalse; cases hfalse
        · rintro ⟨hts, hle⟩
          exact absurd hc (by rw [← Option.some.inj hts] at hle; omega)
      · rw [if_neg hc]
        constructor
        · intro hts
          exact ⟨hts, by rw [← Option.some.inj hts]; omega⟩
        · rintro ⟨hts, _⟩; exact hts
  · intro now m k s h hgt
    unfold ChatTen.sweep
    rw [h]
    simp only [ChatTen.idleThresholdMs] at hgt
    simp [hgt]
    omega
  · intro now now2 m k h
    unfold ChatTen.lookupOrCreate
    rw [h]
    exact ⟨rfl, rfl⟩

/-- C8: the transport validation stage accepts exactly a present, non-empty
session id of at most one hundred characters together with a present,
non-empty message of at most four thousand characters; each violation is
rejected with an error string naming the offending field, mapped by the
handler to a 400 response, while a valid pair passes the gate. -/
theorem C8_input_validation :
    (∀ sid msg : Option String,
      (ChatGate.validateInput sid msg).valid = true ↔
        ((∃ s, sid = some s ∧ s ≠ "" ∧ s.length ≤ 100) ∧
         (∃ t, msg = some t ∧ t ≠ "" ∧ t.length ≤ 4000))) ∧
    (∀ msg, ChatGate.validateInput none msg =
      ⟨false, some "sessionId must be a non-empty string"⟩ ∧
      ChatGate.validateInput (some "") msg =
        ⟨false, some "sessionId must be a non-empty string"⟩) ∧
    (∀ s, s ≠ "" →
      ChatGate.validateInput (some s) none =
        ⟨false, some "message must be a non-empty string"⟩ ∧
      ChatGate.validateInput (some s) (some "") =
        ⟨false, some "message must be a non-empty string"⟩) ∧
    (∀ s t, s ≠ "" → t ≠ "" → 100 < s.length →
      ChatGate.validateInput (some s) (some t) =
        ⟨false, some "sessionId too long (max 100 characters)"⟩) ∧
    (∀ s t, s ≠ "" → s.length ≤ 100 → t ≠ "" → 4000 < t.length →
      ChatGate.validateInput (some s) (some t) =
        ⟨false, some "message too long (max 4000 characters)"⟩) ∧
    (∀ sid msg, ChatGate.validationGate sid msg =
      if (ChatGate.validateInput sid msg).valid then none
      else some ⟨400, (ChatGate.validateInput sid msg).error⟩) := by
  refine ⟨?_, ?_, ?_, ?_, ?_, ?_⟩
  · intro sid msg
    unfold ChatGate.validateInput
    cases sid with
    | none => simp [ChatGate.falsyParam]
    | some s =>
      cases msg with
      | none =>
        by_cases hs : s = "" <;> simp [ChatGate.falsyParam, hs]
      | some t =>
        by_cases hs : s = "" <;> by_cases ht : t = "" <;>
          simp [ChatGate.falsyParam, hs, ht] <;>
          by_cases h100 : 100 < s.length <;> simp [h100] <;>
          by_cases h4000 : 4000 < t.length <;> simp [h4000] <;> omega
  · intro msg
    exact ⟨rfl, rfl⟩
  · intro s hs
    constructor <;>
      simp [ChatGate.validateInput, ChatGate.falsyParam, hs]
  · intro s t hs ht h100
    unfold ChatGate.validateInput
    rw [if_neg (by simp [ChatGate.falsyParam, hs])]
    rw [if_neg (by simp [ChatGate.falsyParam, ht])]
    rw [if_pos (by simpa using h100)]
  · intro s t hs h100 ht h4000
    unfold ChatGate.validateInput
    rw [if_neg (by simp [ChatGate.falsyParam, hs])]
    rw [if_neg (by simp [ChatGate.falsyParam, ht])]
    rw [if_neg (by simp; omega)]
    rw [if_pos (by simpa using h4000)]
  · intro sid msg
    unfold ChatGate.validationGate
    split <;> simp_all

/-- C7 witness: a session idle for sixteen minutes is swept, and the next
lookup creates a fresh session. -/
theorem C7_idle_sweep_witness :
    ChatTen.sweep 960000 partialSessions "s2" = none ∧
    ChatTen.lookupOrCreate (ChatTen.sweep 960000 partialSessions) "s2" 961000 =
      ChatTen.freshSession 961000 :=
  ⟨rfl, (C7_idle_sweep.2.2.2.2 960000 961000 partialSessions "s2" rfl).1⟩

/-- C8 witness: a one-hundred-and-one character session id with a short
message is rejected naming sessionId. -/
theorem C8_input_validation_witness :
    longSid ≠ "" ∧ ("hi" : String) ≠ "" ∧ 100 < longSid.length ∧
    ChatGate.validateInput (some longSid) (some "hi") =
      ⟨false, some "sessionId too long (max 100 characters)"⟩ :=
  ⟨by decide, by decide, by decide,
    C8_input_validation.2.2.2.1 longSid "hi" (by decide) (by decide) (by decide)⟩

/-- C1 counterexample: a session with every required field collected and
status pending is booked with a yes message, yet the persisted record holds
status booked, not the collected status value, so the record does not
include all collected field values. -/
theorem C1_booking_counterexample :
    ((ChatTen.handler fullSessions "s1" "yes" 1000 (.ok "x") parseNone
        (.ok ())).1.appointment.map fun d => d.fields "status") =
      some (some "booked") ∧
    fullData "status" = some "pending" ∧
    truthy (fullData "status") = true ∧
    (some "booked" : Option String) ≠ some "pending" :=
  ⟨rfl, rfl, rfl, by decide⟩

/-- C1 amended: on a yes message for a fully collected session the handler
inserts the record formed from the collected data with the status and action
slots overwritten to booked and appointment, answers 200 with completed true
and that record, deletes the session, and the next lookup for the same key
creates a fresh session with an empty collected mapping. -/
theorem C1_amended_booking_flow :
    ∀ (sessions : ChatTen.SessionMap) (s : ChatTen.Session) (sid msg : String)
      (now now2 : Int) (completion : Except String String)
      (parse : String → Option ChatTen.ExtractorOutput),
      sid ≠ "" → msg ≠ "" → sessions sid = some s →
      (ChatTen.missingFields s.data).isEmpty = true →
      ChatTen.testYes msg = true →
      (ChatTen.handler sessions sid msg now completion parse (.ok ())).1 =
        ChatTen.okResponse (some "Your appointment is confirmed! Thank you.")
          (some { fields := ChatTen.bookedFields s.data, createdAt := now,
                  sessionId := sid }) (some true) none none ∧
      (∀ f, f ≠ "status" → f ≠ "action" →
        ChatTen.bookedFields s.data f = s.data f) ∧
      ChatTen.bookedFields s.data "status" = some "booked" ∧
      ChatTen.bookedFields s.data "action" = some "appointment" ∧
      (ChatTen.handler sessions sid msg now completion parse (.ok ())).2 sid =
        none ∧
      ChatTen.lookupOrCreate
        ((ChatTen.handler sessions sid msg now completion parse (.ok ())).2)
        sid now2 = ChatTen.freshSession now2 ∧
      (ChatTen.freshSession now2).data = emptyFields := by
  intro sessions s sid msg now now2 completion parse h1 h2 h3 h4 h5
  have hguard : ¬(sid = "" ∨ msg = "") := not_or.mpr ⟨h1, h2⟩
  simp only [ChatTen.handler, ChatTen.lookupOrCreate, h3, h4, h5, hguard,
    if_false, if_true, ChatTen.setSession]
  refine ⟨?_, ?_, ?_, ?_, ?_, ?_, ?_⟩
  all_goals
    first
    | (intro f hf1 hf2; simp [ChatTen.bookedFields, hf1, hf2])
    | trivial

/-- C1 witness: the amended booking flow applied to the fully collected
session under key s1 with message yes. -/
theorem C1_amended_booking_flow_witness :
    ("s1" : String) ≠ "" ∧ ("yes" : String) ≠ "" ∧
    (ChatTen.missingFields fullData).isEmpty = true ∧
    ChatTen.testYes "yes" = true ∧
    (ChatTen.handler fullSessions "s1" "yes" 1000 (.ok "x") parseNone
      (.ok ())).2 "s1" = none :=
  ⟨by decide, by decide, by decide, by decide,
    (C1_amended_booking_flow fullSessions
      { step := 0, data := fullData, lastActive := 0, started := false }
      "s1" "yes" 1000 2000 (.ok "x") parseNone (by decide) (by decide) rfl
      (by decide) (by decide)).2.2.2.2.1⟩

/-- Helper: a yes turn on a fully collected session with a working insert
answers 200 with completed true. -/
theorem booking_ok_aux :
    ∀ (sessions : ChatTen.SessionMap) (s : ChatTen.Session) (sid msg : String)
      (now : Int) (completion : Except String String)
      (parse : String → Option ChatTen.ExtractorOutput),
      sid ≠ "" → msg ≠ "" → sessions sid = some s →
      (ChatTen.missingFields s.data).isEmpty = true →
      ChatTen.testYes msg = true →
      (ChatTen.handler sessions sid msg now completion parse
        (.ok ())).1.statusCode = 200 ∧
      (ChatTen.handler sessions sid msg now completion parse
        (.ok ())).1.completed = some true := by
  intro sessions s sid msg now completion parse h1 h2 h3 h4 h5
  have hguard : ¬(sid = "" ∨ msg = "") := not_or.mpr ⟨h1, h2⟩
  simp only [ChatTen.handler, ChatTen.lookupOrCreate, h3, h4, h5, hguard,
    if_false, if_true]
  exact ⟨rfl, rfl⟩

/-- C2: when the record insert fails during booking, the handler answers with
a 500 carrying the thrown message, the session survives with its collected
data untouched, and a retry of the same yes message for the same key with a
working insert completes the booking. -/
theorem C2_insert_failure_preserves_session :
    ∀ (sessions : ChatTen.SessionMap) (s : ChatTen.Session) (sid msg : String)
      (now now2 : Int) (completion completion2 : Except String String)
      (parse parse2 : String → Option ChatTen.ExtractorOutput) (e : String),
      sid ≠ "" → msg ≠ "" → sessions sid = some s →
      (ChatTen.missingFields s.data).isEmpty = true →
      ChatTen.testYes msg = true →
      (ChatTen.handler sessions sid msg now completion parse (.error e)).1 =
        ChatTen.serverError e ∧
      (ChatTen.handler sessions sid msg now completion parse (.error e)).2 sid =
        some { s with lastActive := now } ∧
      (ChatTen.handler
          ((ChatTen.handler sessions sid msg now completion parse (.error e)).2)
          sid msg now2 completion2 parse2 (.ok ())).1.statusCode = 200 ∧
      (ChatTen.handler
          ((ChatTen.handler sessions sid msg now completion parse (.error e)).2)
          sid msg now2 completion2 parse2 (.ok ())).1.completed = some true := by
  intro sessions s sid msg now now2 completion completion2 parse parse2 e
    h1 h2 h3 h4 h5
  have hguard : ¬(sid = "" ∨ msg = "") := not_or.mpr ⟨h1, h2⟩
  have hfirst :
      (ChatTen.handler sessions sid msg now completion parse (.error e)).2 sid =
        some { s with lastActive := now } := by
    simp only [ChatTen.handler, ChatTen.lookupOrCreate, h3, h4, h5, hguard,
      if_false, if_true, ChatTen.setSession]
  have hretry := booking_ok_aux
    ((ChatTen.handler sessions sid msg now completion parse (.error e)).2)
    { s with lastActive := now } sid msg now2 completion2 parse2
    h1 h2 hfirst h4 h5
  refine ⟨?_, hfirst, hretry.1, hretry.2⟩
  · simp only [ChatTen.handler, ChatTen.lookupOrCreate, h3, h4, h5, hguard,
      if_false, if_true]

/-- C2 witness: the insert-failure flow applied to the fully collected
session under key s1. -/
theorem C2_insert_failure_preserves_session_witness :
    ("s1" : String) ≠ "" ∧ ("yes" : String) ≠ "" ∧
    (ChatTen.missingFields fullData).isEmpty = true ∧
    ChatTen.testYes "yes" = true ∧
    (ChatTen.handler fullSessions "s1" "yes" 1000 (.ok "x") parseNone
      (.error "mongo down")).1 = ChatTen.serverError "mongo down" ∧
    (ChatTen.handler
        ((ChatTen.handler fullSessions "s1" "yes" 1000 (.ok "x") parseNone
          (.error "mongo down")).2)
        "s1" "yes" 2000 (.ok "x") parseNone (.ok ())).1.completed = some true :=
  ⟨by decide, by decide, by decide, by decide,
    (C2_insert_failure_preserves_session fullSessions
      { step := 0, data := fullData, lastActive := 0, started := false }
      "s1" "yes" 1000 2000 (.ok "x") (.ok "x") parseNone parseNone "mongo down"
      (by decide) (by decide) rfl (by decide) (by decide)).1,
    (C2_insert_failure_preserves_session fullSessions
      { step := 0, data := fullData, lastActive := 0, started := false }
      "s1" "yes" 1000 2000 (.ok "x") (.ok "x") parseNone parseNone "mongo down"
      (by decide) (by decide) rfl (by decide) (by decide)).2.2.2⟩

/-- C3: with every field collected, a message that is neither affirmative nor
negative makes the re-ask branch read the identifiers PROMPTS and STEPS,
which resolve nowhere in the module scope; the thrown ReferenceError is
caught and answered as a 500, not as a normal re-prompt, while the session
itself is left with its collected data unchanged. -/
theorem C3_reask_branch_throws :
    (ChatTen.handler fullSessions "s1" "maybe" 1000 (.ok "x") parseNone
      (.ok ())).1.statusCode = 500 ∧
    (ChatTen.handler fullSessions "s1" "maybe" 1000 (.ok "x") parseNone
      (.ok ())).1.response = none ∧
    (ChatTen.handler fullSessions "s1" "maybe" 1000 (.ok "x") parseNone
      (.ok ())).1.error = some "PROMPTS is not defined" ∧
    ChatTen.resolveId "PROMPTS" = none ∧
    ChatTen.resolveId "STEPS" = none ∧
    (ChatTen.handler fullSessions "s1" "maybe" 1000 (.ok "x") parseNone
      (.ok ())).2 "s1" =
      some { step := 0, data := fullData, lastActive := 1000, started := false } :=
  ⟨rfl, rfl, rfl, rfl, rfl, rfl⟩

/-- C4 counterexample: a failing completion call is an extraction failure
that escapes handleAIConversation unchanged and surfaces as a 500 error
response, so not every extraction failure is absorbed at the extractor
boundary. -/
theorem C4_extraction_counterexample :
    ChatTen.handleAIConversation (.error "OpenAI API timeout") parseNone =
      .error "OpenAI API timeout" ∧
    (ChatTen.handler ChatTen.emptySessions "s9" "hello" 0
      (.error "OpenAI API timeout") parseNone (.ok ())).1.statusCode = 500 ∧
    (ChatTen.handler ChatTen.emptySessions "s9" "hello" 0
      (.error "OpenAI API timeout") parseNone (.ok ())).1.error =
      some "OpenAI API timeout" :=
  ⟨rfl, rfl, rfl⟩

/-- C4 amended: unparseable completion output is absorbed inside the
extractor, which then returns the data-free clarification fallback instead
of throwing; parseable output is returned as parsed; but an error of the
completion call itself is rethrown out of the extractor and the handler
turns it into a 500 response. -/
theorem C4_amended_extraction_failures :
    (∀ (parse : String → Option ChatTen.ExtractorOutput) (content : String),
      parse content = none →
        ChatTen.handleAIConversation (.ok content) parse =
          .ok ChatTen.fallbackOutput) ∧
    (∀ (parse : String → Option ChatTen.ExtractorOutput) (content : String)
        (out : ChatTen.ExtractorOutput),
      parse content = some out →
        ChatTen.handleAIConversation (.ok content) parse = .ok out) ∧
    (∀ (parse : String → Option ChatTen.ExtractorOutput) (e : String),
      ChatTen.handleAIConversation (.error e) parse = .error e) ∧
    (∀ (sessions : ChatTen.SessionMap) (sid msg : String) (now : Int)
        (parse : String → Option ChatTen.ExtractorOutput) (e : String),
      sid ≠ "" → msg ≠ "" → sessions sid = none →
      (ChatTen.handler sessions sid msg now (.error e) parse
        (.ok ())).1.statusCode = 500) := by
  refine ⟨?_, ?_, ?_, ?_⟩
  · intro parse content h
    simp only [ChatTen.handleAIConversation, h]
  · intro parse content out h
    simp only [ChatTen.handleAIConversation, h]
  · intro parse e
    rfl
  · intro sessions sid msg now parse e h1 h2 h3
    have hguard : ¬(sid = "" ∨ msg = "") := not_or.mpr ⟨h1, h2⟩
    have hmiss : (ChatTen.missingFields emptyFields).isEmpty = false := by
      decide
    simp only [ChatTen.handler, ChatTen.lookupOrCreate, ChatTen.freshSession,
      h3, hguard, if_false, hmiss, ChatTen.handleAIConversation]
    rfl

/-- C4 witness: the amended fallback behavior at a concrete unparseable
content together with a concrete escaping completion failure. -/
theorem C4_amended_extraction_failures_witness :
    parseNone "bad output" = none ∧
    ChatTen.handleAIConversation (.ok "bad output") parseNone =
      .ok ChatTen.fallbackOutput ∧
    ChatTen.emptySessions "s9" = none ∧
    (ChatTen.handler ChatTen.emptySessions "s9" "hello" 0
      (.error "boom") parseNone (.ok ())).1.statusCode = 500 :=
  ⟨rfl, C4_amended_extraction_failures.1 parseNone "bad output" rfl, rfl,
    C4_amended_extraction_failures.2.2.2 ChatTen.emptySessions "s9" "hello" 0
      parseNone "boom" (by decide) (by decide) rfl⟩

/-- C6 counterexample: in the seven-field variant, the first turn carrying a
name and an email answers step one of seven and stores nothing, because this
variant stores the raw previous answer rather than extracting fields. -/
theorem C6_first_turn_counterexample :
    (ChatSeven.handler ChatSeven.emptySessions "s1"
      "My name is Jane Doe, email jane@example.com" 0 (.ok "ok")
      (.ok ())).1.step = some 1 ∧
    (ChatSeven.handler ChatSeven.emptySessions "s1"
      "My name is Jane Doe, email jane@example.com" 0 (.ok "ok")
      (.ok ())).1.totalSteps = some 7 ∧
    (some 1 : Option Nat) ≠ some 2 ∧
    ((ChatSeven.handler ChatSeven.emptySessions "s1"
      "My name is Jane Doe, email jane@example.com" 0 (.ok "ok")
      (.ok ())).2 "s1").map (fun t => t.data "name") = some none ∧
    ((ChatSeven.handler ChatSeven.emptySessions "s1"
      "My name is Jane Doe, email jane@example.com" 0 (.ok "ok")
      (.ok ())).2 "s1").map (fun t => t.data "email") = some none :=
  ⟨rfl, rfl, by decide, rfl, rfl⟩

/-- C6 amended: in the ten-field delegated-extraction variant a collecting
turn answers the extractor's follow-up prompt annotated with step equal to
the required-field count minus the number of fields still missing after the
merge and totalSteps equal to the required-field count, which is ten; the
seven-field variant instead answers its incremented cursor as step, so its
first turn yields step one of seven with an empty collected mapping. -/
theorem C6_amended_step_numbering :
    (∀ (sessions : ChatTen.SessionMap) (s : ChatTen.Session)
        (sid msg content : String) (now : Int)
        (parse : String → Option ChatTen.ExtractorOutput)
        (out : ChatTen.ExtractorOutput),
      sid ≠ "" → msg ≠ "" → sessions sid = some s →
      (ChatTen.missingFields s.data).isEmpty = false →
      parse content = some out →
      (ChatTen.handler sessions sid msg now (.ok content) parse
        (.ok ())).1.response = some out.nextPrompt ∧
      (ChatTen.handler sessions sid msg now (.ok content) parse
        (.ok ())).1.step = some (ChatTen.requiredFields.length -
          (ChatTen.missingFields (spreadMerge s.data out.data)).length) ∧
      (ChatTen.handler sessions sid msg now (.ok content) parse
        (.ok ())).1.totalSteps = some ChatTen.requiredFields.length ∧
      ChatTen.requiredFields.length = 10) ∧
    ((ChatSeven.handler ChatSeven.emptySessions "s1"
        "My name is Jane Doe, email jane@example.com" 0 (.ok "ok")
        (.ok ())).1.step = some 1 ∧
      (ChatSeven.handler ChatSeven.emptySessions "s1"
        "My name is Jane Doe, email jane@example.com" 0 (.ok "ok")
        (.ok ())).1.totalSteps = some 7) := by
  refine ⟨?_, rfl, rfl⟩
  intro sessions s sid msg content now parse out h1 h2 h3 h4 h5
  have hguard : ¬(sid = "" ∨ msg = "") := not_or.mpr ⟨h1, h2⟩
  simp only [ChatTen.handler, ChatTen.lookupOrCreate, h3, h4, h5, hguard,
    if_false, ChatTen.handleAIConversation]
  exact ⟨rfl, rfl, rfl, rfl⟩

/-- C6 witness: the annotated collecting turn applied to a fresh session
whose extraction yields a name and an email, giving step two of ten. -/
theorem C6_amended_step_numbering_witness :
    (ChatTen.missingFields emptyFields).isEmpty = false ∧
    parseTwoFields "c" = some twoFieldsOut ∧
    (ChatTen.handler partialSessions "s2" "hi" 5 (.ok "c") parseTwoFields
      (.ok ())).1.step = some (ChatTen.requiredFields.length -
        (ChatTen.missingFields (spreadMerge emptyFields
          twoFieldsOut.data)).length) ∧
    (ChatTen.handler partialSessions "s2" "hi" 5 (.ok "c") parseTwoFields
      (.ok ())).1.step = some 2 ∧
    (ChatTen.handler partialSessions "s2" "hi" 5 (.ok "c") parseTwoFields
      (.ok ())).1.totalSteps = some 10 :=
  ⟨by decide, rfl,
    (C6_amended_step_numbering.1 partialSessions
      { step := 0, data := emptyFields, lastActive := 0, started := false }
      "s2" "hi" "c" 5 parseTwoFields twoFieldsOut (by decide) (by decide) rfl
      (by decide) rfl).2.1,
    rfl, rfl⟩
